import Mathlib

/-!
# Psych-Ward Room Optimization — verification of the core algorithms

Shallow embedding of the core of the Psych-Ward Room Optimization repository:
the waste evaluator (`src/models/optimized_model.py`), the ILP formulation of
the configuration optimizer (`src/core/optimizer.py`, `src/core/constraints.py`),
the brute-force landscape analyzer
(`src/visualization/optimization_charts.py`), the capacity analyzer
(`src/analysis/capacity_analyzer.py`), and the efficiency calculators
(`src/analysis/efficiency_calculator.py`, `src/models/base_model.py`).

Python integers are modelled as `Int`; Python floats produced by the efficiency
formulas are modelled as `ℚ` (only ratios of integers occur).
-/

namespace PsychWard

/-- Modelled from the spec: the YAML configuration files
(`config/optimization_params.yaml`, `config/model_configs.yaml`) that
`src/utils/constants.py` reads are not present in the source tree.  The ward
capacity follows the spec ("a fixed ward-wide constant, e.g. 26") and the
legacy scripts (`optimizer.py`: `2 * D + S == 26`). -/
def TOTAL_BEDS : Int := 26

/-- Modelled from the spec: bound on double rooms, absent YAML; the legacy
scripts use `upBound=13` for `D` and the landscape sweep uses `arange(0, 14)`. -/
def MAX_DOUBLE_ROOMS : Int := 13

/-- Modelled from the spec: bound on single rooms, absent YAML; the legacy
scripts use `upBound=26` for `S` and the landscape sweep uses `arange(0, 27)`. -/
def MAX_SINGLE_ROOMS : Int := 26

/-- Modelled from the spec: default single-room count, absent YAML; the
`OptimizedModel` docstring states "The default configuration (10 single,
8 double)". -/
def DEFAULT_SINGLE_ROOMS : Int := 10

/-- Modelled from the spec: default double-room count, absent YAML; the
`OptimizedModel` docstring states "The default configuration (10 single,
8 double)". -/
def DEFAULT_DOUBLE_ROOMS : Int := 8

/-- Modelled from the spec: beds per double room, absent YAML; the spec fixes
`DOUBLE_ROOM_CAPACITY=2` and every legacy script uses `2 * D`. -/
def DOUBLE_ROOM_CAPACITY : Int := 2

/-- One historical day of demand: `Total Single Room Patients`,
`Double Room Patients`, and `Closed Rooms` columns of the census data. -/
structure DemandRecord where
  isolation_patients : Int
  pairable_patients : Int
  closed_rooms : Int
deriving DecidableEq

/-- The per-day waste pair returned by `OptimizedModel.evaluate_day`
(dict keys `Wasted_Beds` and `Wasted_Potential`). -/
structure DailyWaste where
  wasted_beds : Int
  wasted_potential : Int
deriving DecidableEq

namespace OptimizedModel

/-- `OptimizedModel.evaluate_day` (src/models/optimized_model.py, lines 49-88):
`wasted_beds = max(0, single_room_patients - self.single_rooms)` and
`wasted_potential = max(0, double_room_patients - double_room_capacity)` with
`double_room_capacity = self.double_rooms * DOUBLE_ROOM_CAPACITY`. -/
def evaluate_day (single_rooms double_rooms : Int) (row : DemandRecord) : DailyWaste :=
  { wasted_beds := max 0 (row.isolation_patients - single_rooms)
    wasted_potential :=
      max 0 (row.pairable_patients - double_rooms * DOUBLE_ROOM_CAPACITY) }

end OptimizedModel

/-- The inner accumulation loop of
`OptimizationCharts.calculate_optimization_landscape`
(src/visualization/optimization_charts.py, lines 72-88): for one feasible
configuration `(S, D)` it accumulates
`singles_in_double = max(0, single_patients - S)` plus
`doubles_in_single = max(0, double_patients - 2 * D)` over every row of the
data, starting from `total_waste = 0`. -/
def calculate_optimization_landscape_entry (S D : Int) (data : List DemandRecord) : Int :=
  data.foldl
    (fun total_waste row =>
      total_waste +
        (max 0 (row.isolation_patients - S) +
         max 0 (row.pairable_patients - 2 * D)))
    0

/-- Error raised by `BaseModel.__init__` (src/models/base_model.py, lines 46-51):
`raise ValueError(f"Invalid configuration: {total_beds} beds ...")`, carrying
the offending bed total. -/
inductive ModelError where
  | invalid_configuration (total_beds : Int)
deriving DecidableEq

/-- A constructed model's room configuration (the `single_rooms` /
`double_rooms` attributes stored by `BaseModel.__init__`). -/
structure Configuration where
  single_rooms : Int
  double_rooms : Int
deriving DecidableEq

namespace BaseModel

/-- `BaseModel.__init__` (src/models/base_model.py, lines 32-61): stores the
supplied room counts, computes `total_beds = single_rooms + (2 * double_rooms)`
and raises `ValueError` when `total_beds != TOTAL_BEDS`; otherwise the object
carries exactly the supplied counts. -/
def init (single_rooms double_rooms : Int) : Except ModelError Configuration :=
  let total_beds := single_rooms + (2 * double_rooms)
  if total_beds ≠ TOTAL_BEDS then
    Except.error (ModelError.invalid_configuration total_beds)
  else
    Except.ok { single_rooms := single_rooms, double_rooms := double_rooms }

/-- The per-day `Efficiency` column computed by `BaseModel.evaluate`
(src/models/base_model.py, lines 134-148):
`((available_beds - wasted_beds - wasted_potential) / available_beds) * 100`
when `available_beds > 0`, else `0`; no clamping is applied. -/
def daily_efficiency (available_beds wasted_beds wasted_potential : Int) : ℚ :=
  if 0 < available_beds then
    ((available_beds : ℚ) - wasted_beds - wasted_potential) / (available_beds : ℚ) * 100
  else 0

end BaseModel

/-- Python's `x or default` applied to an optional integer argument
(`single_rooms = single_rooms or DEFAULT_SINGLE_ROOMS` in
src/models/optimized_model.py, line 40): `None` and `0` are both falsy and
replaced by the default. -/
def pyOrDefault (v : Option Int) (dflt : Int) : Int :=
  match v with
  | none => dflt
  | some n => if n = 0 then dflt else n

namespace OptimizedModel

/-- `OptimizedModel.__init__` (src/models/optimized_model.py, lines 30-47):
replaces falsy arguments by the configured defaults via Python `or`, then
delegates to `BaseModel.__init__` which validates the bed invariant. -/
def init (single_rooms double_rooms : Option Int) : Except ModelError Configuration :=
  BaseModel.init (pyOrDefault single_rooms DEFAULT_SINGLE_ROOMS)
    (pyOrDefault double_rooms DEFAULT_DOUBLE_ROOMS)

end OptimizedModel

/-- The four daily constraints added by `ConstraintBuilder.add_daily_constraints`
(src/core/constraints.py, lines 55-114) for the pair of per-day integer
variables `w = (single_in_double, double_in_single)`:
`single_in_double >= single_rooms_needed - S`,
`single_in_double <= single_rooms_needed`, the variable lower bound
`lowBound=0`, and likewise
`double_in_single >= double_rooms_needed - DOUBLE_ROOM_CAPACITY * D`,
`double_in_single <= double_rooms_needed`, `lowBound=0`. -/
def DailyConstraintsOk (S D : Int) (row : DemandRecord) (w : Int × Int) : Prop :=
  row.isolation_patients - S ≤ w.1 ∧
  w.1 ≤ row.isolation_patients ∧
  0 ≤ w.1 ∧
  row.pairable_patients - DOUBLE_ROOM_CAPACITY * D ≤ w.2 ∧
  w.2 ≤ row.pairable_patients ∧
  0 ≤ w.2

instance (S D : Int) (row : DemandRecord) (w : Int × Int) :
    Decidable (DailyConstraintsOk S D row w) := by
  unfold DailyConstraintsOk; infer_instance

/-- Feasibility of an assignment of the ILP built by
`WardOptimizer.optimize_space` (src/core/optimizer.py, lines 70-144): the
decision variables `S` (`lowBound=0, upBound=MAX_SINGLE_ROOMS`) and `D`
(`lowBound=0, upBound=MAX_DOUBLE_ROOMS`), the bed-capacity equality
`DOUBLE_ROOM_CAPACITY * D + S == TOTAL_BEDS`
(`ConstraintBuilder.add_bed_capacity_constraint`), and one pair of auxiliary
variables per day of data satisfying the four daily constraints.  The
accumulation constraints force `total_wasted_beds` and
`total_wasted_potential` to equal the sums of the daily variables, so the
aggregate variables are represented by those sums. -/
def ILPFeasible (data : List DemandRecord) (S D : Int) (ws : List (Int × Int)) : Prop :=
  0 ≤ S ∧ S ≤ MAX_SINGLE_ROOMS ∧
  0 ≤ D ∧ D ≤ MAX_DOUBLE_ROOMS ∧
  DOUBLE_ROOM_CAPACITY * D + S = TOTAL_BEDS ∧
  ws.length = data.length ∧
  ∀ p ∈ data.zip ws, DailyConstraintsOk S D p.1 p.2

instance (data : List DemandRecord) (S D : Int) (ws : List (Int × Int)) :
    Decidable (ILPFeasible data S D ws) := by
  unfold ILPFeasible; infer_instance

/-- The objective set by `ObjectiveBuilder.set_minimize_waste_objective`:
`total_wasted_beds + total_wasted_potential`, i.e. the sum of all daily
`single_in_double` variables plus the sum of all daily `double_in_single`
variables (via the accumulation equality constraints). -/
def ILPObjective (ws : List (Int × Int)) : Int :=
  (ws.map Prod.fst).sum + (ws.map Prod.snd).sum

/-- An optimal solution of the ILP: feasible, and of minimal objective among
all feasible assignments. -/
def ILPOptimal (data : List DemandRecord) (S D : Int) (ws : List (Int × Int)) : Prop :=
  ILPFeasible data S D ws ∧
  ∀ S' D' ws', ILPFeasible data S' D' ws' → ILPObjective ws ≤ ILPObjective ws'

/-- The grid of configurations swept by
`OptimizationCharts.calculate_optimization_landscape`
(`np.arange(0, MAX_SINGLE_ROOMS + 1)` × `np.arange(0, MAX_DOUBLE_ROOMS + 1)`),
restricted to the cells where the feasibility check `2 * D + S == TOTAL_BEDS`
passes (all other cells stay NaN). -/
def feasibleConfigs : Finset (Int × Int) :=
  (Finset.Icc 0 MAX_SINGLE_ROOMS ×ˢ Finset.Icc 0 MAX_DOUBLE_ROOMS).filter
    (fun p => 2 * p.2 + p.1 = TOTAL_BEDS)

theorem feasibleConfigs_nonempty : feasibleConfigs.Nonempty :=
  ⟨(0, 13), by decide⟩

/-- The minimum total-waste entry of the landscape sweep: the least value of
`calculate_optimization_landscape_entry` over all feasible `(S, D)` cells. -/
def sweepMin (data : List DemandRecord) : Int :=
  (feasibleConfigs.image fun p =>
      calculate_optimization_landscape_entry p.1 p.2 data).min'
    (feasibleConfigs_nonempty.image _)

/- ### Helper lemmas about the landscape accumulation and the ILP -/

theorem foldl_add_map (g : DemandRecord → Int) (data : List DemandRecord) : ∀ a : Int,
    data.foldl (fun t row => t + g row) a = a + (data.map g).sum := by
  induction data with
  | nil => intro a; simp
  | cons r l ih =>
    intro a
    simp only [List.foldl_cons, List.map_cons, List.sum_cons, ih]
    ring

theorem landscape_entry_eq_sum (S D : Int) (data : List DemandRecord) :
    calculate_optimization_landscape_entry S D data
      = (data.map fun row =>
          max 0 (row.isolation_patients - S)
            + max 0 (row.pairable_patients - 2 * D)).sum := by
  have h := foldl_add_map
    (fun row =>
      max 0 (row.isolation_patients - S) + max 0 (row.pairable_patients - 2 * D))
    data 0
  simpa [calculate_optimization_landscape_entry] using h

theorem landscape_entry_cons (S D : Int) (r : DemandRecord) (l : List DemandRecord) :
    calculate_optimization_landscape_entry S D (r :: l)
      = (max 0 (r.isolation_patients - S) + max 0 (r.pairable_patients - 2 * D))
        + calculate_optimization_landscape_entry S D l := by
  simp [landscape_entry_eq_sum]

theorem landscape_entry_nonneg (S D : Int) (data : List DemandRecord) :
    0 ≤ calculate_optimization_landscape_entry S D data := by
  induction data with
  | nil => simp [calculate_optimization_landscape_entry]
  | cons r l ih =>
    rw [landscape_entry_cons]
    have h1 : (0 : Int) ≤ max 0 (r.isolation_patients - S) := le_max_left _ _
    have h2 : (0 : Int) ≤ max 0 (r.pairable_patients - 2 * D) := le_max_left _ _
    omega

theorem ilp_objective_ge_landscape (S D : Int) :
    ∀ (data : List DemandRecord) (ws : List (Int × Int)),
      ws.length = data.length →
      (∀ p ∈ data.zip ws, DailyConstraintsOk S D p.1 p.2) →
      calculate_optimization_landscape_entry S D data ≤ ILPObjective ws := by
  intro data
  induction data with
  | nil =>
    intro ws hlen _
    rw [List.length_nil] at hlen
    rw [List.eq_nil_of_length_eq_zero hlen]
    simp [calculate_optimization_landscape_entry, ILPObjective]
  | cons r l ih =>
    intro ws hlen hdaily
    match ws with
    | [] => simp at hlen
    | w :: ws' =>
      have hw : DailyConstraintsOk S D r w := hdaily (r, w) (by simp)
      have hrest : ∀ p ∈ l.zip ws', DailyConstraintsOk S D p.1 p.2 := by
        intro p hp
        exact hdaily p (by simp [List.zip_cons_cons, hp])
      have hlen' : ws'.length = l.length := by
        simpa using hlen
      have hih := ih ws' hlen' hrest
      rw [landscape_entry_cons]
      obtain ⟨hb1, _, hb3, hp1, _, hp3⟩ := hw
      have hmax1 : max 0 (r.isolation_patients - S) ≤ w.1 := max_le hb3 hb1
      have hmax2 : max 0 (r.pairable_patients - 2 * D) ≤ w.2 := by
        have : r.pairable_patients - 2 * D ≤ w.2 := by
          simp only [DOUBLE_ROOM_CAPACITY] at hp1; omega
        exact max_le hp3 this
      simp only [ILPObjective, List.map_cons, List.sum_cons] at *
      omega

/-- The assignment of the auxiliary variables to the exact waste values
`(max 0 (iso - S), max 0 (pair - 2*D))`: the assignment the solver is forced
to at the optimum. -/
def exactWastes (S D : Int) (data : List DemandRecord) : List (Int × Int) :=
  data.map fun row =>
    (max 0 (row.isolation_patients - S),
     max 0 (row.pairable_patients - DOUBLE_ROOM_CAPACITY * D))

theorem exactWastes_objective (S D : Int) (data : List DemandRecord) :
    ILPObjective (exactWastes S D data)
      = calculate_optimization_landscape_entry S D data := by
  induction data with
  | nil => simp [exactWastes, ILPObjective, calculate_optimization_landscape_entry]
  | cons r l ih =>
    rw [landscape_entry_cons]
    simp only [exactWastes, ILPObjective, List.map_cons, List.sum_cons,
      DOUBLE_ROOM_CAPACITY] at *
    omega

theorem exactWastes_daily (S D : Int) (hS : 0 ≤ S) (hD : 0 ≤ D) :
    ∀ (data : List DemandRecord),
      (∀ r ∈ data, 0 ≤ r.isolation_patients ∧ 0 ≤ r.pairable_patients) →
      ∀ p ∈ data.zip (exactWastes S D data), DailyConstraintsOk S D p.1 p.2 := by
  intro data
  induction data with
  | nil => simp
  | cons r l ih =>
    intro hnn p hp
    simp only [exactWastes, List.map_cons, List.zip_cons_cons, List.mem_cons] at hp
    rcases hp with hp | hp
    · subst hp
      have hr := hnn r (by simp)
      refine ⟨le_max_right _ _, ?_, le_max_left _ _,
        le_max_right _ _, ?_, le_max_left _ _⟩
      · have : r.isolation_patients - S ≤ r.isolation_patients := by omega
        exact max_le hr.1 this
      · have hcap : (0 : Int) ≤ DOUBLE_ROOM_CAPACITY * D := by
          simp only [DOUBLE_ROOM_CAPACITY]; omega
        have : r.pairable_patients - DOUBLE_ROOM_CAPACITY * D ≤ r.pairable_patients := by
          omega
        exact max_le hr.2 this
    · exact ih (fun r' hr' => hnn r' (by simp [hr'])) p hp

theorem exactWastes_length (S D : Int) (data : List DemandRecord) :
    (exactWastes S D data).length = data.length := by
  simp [exactWastes]

/- ### Claim C1: the ILP optimum equals the brute-force minimum -/

/-- C1: for every dataset of non-negative demand records, the optimal value of
the optimizer's ILP (minimal `total_wasted_beds + total_wasted_potential` over
all feasible assignments) is exactly the minimum, over the feasible `(S, D)`
cells of the landscape sweep, of the brute-force total waste
`Σ max(0, iso - S) + max(0, pair - 2*D)`. -/
theorem optimizer_matches_brute_force_minimum (data : List DemandRecord)
    (hdata : ∀ r ∈ data, 0 ≤ r.isolation_patients ∧ 0 ≤ r.pairable_patients) :
    IsLeast {v : Int | ∃ S D ws, ILPFeasible data S D ws ∧ ILPObjective ws = v}
      (sweepMin data) := by
  constructor
  · -- the brute-force minimum is attained by a feasible ILP assignment
    have hmem := Finset.min'_mem
      (feasibleConfigs.image fun p =>
        calculate_optimization_landscape_entry p.1 p.2 data)
      (feasibleConfigs_nonempty.image _)
    obtain ⟨p, hp, hpe⟩ := Finset.mem_image.mp hmem
    obtain ⟨hprod, hline⟩ := Finset.mem_filter.mp hp
    obtain ⟨hpS, hpD⟩ := Finset.mem_product.mp hprod
    rw [Finset.mem_Icc] at hpS hpD
    refine ⟨p.1, p.2, exactWastes p.1 p.2 data, ?_, ?_⟩
    · refine ⟨hpS.1, hpS.2, hpD.1, hpD.2, ?_, exactWastes_length _ _ _,
        exactWastes_daily p.1 p.2 hpS.1 hpD.1 data hdata⟩
      simp only [DOUBLE_ROOM_CAPACITY]
      omega
    · rw [exactWastes_objective, hpe]
      rfl
  · -- every feasible ILP assignment has objective at least the sweep minimum
    rintro v ⟨S, D, ws, hfeas, rfl⟩
    obtain ⟨hS0, hS1, hD0, hD1, hline, hlen, hdaily⟩ := hfeas
    have hmemc : (S, D) ∈ feasibleConfigs := by
      refine Finset.mem_filter.mpr ⟨Finset.mem_product.mpr ⟨?_, ?_⟩, ?_⟩
      · exact Finset.mem_Icc.mpr ⟨hS0, hS1⟩
      · exact Finset.mem_Icc.mpr ⟨hD0, hD1⟩
      · simp only [DOUBLE_ROOM_CAPACITY] at hline
        omega
    have hle : sweepMin data ≤ calculate_optimization_landscape_entry S D data :=
      Finset.min'_le _ _ (Finset.mem_image.mpr ⟨(S, D), hmemc, rfl⟩)
    exact le_trans hle (ilp_objective_ge_landscape S D data ws hlen hdaily)

/-- Witness for C1 at the spec's concrete one-record dataset
`{isolation=5, pairable=10, closed=0}`. -/
theorem optimizer_matches_brute_force_minimum_witness :
    (∀ r ∈ [(⟨5, 10, 0⟩ : DemandRecord)],
        0 ≤ r.isolation_patients ∧ 0 ≤ r.pairable_patients) ∧
    IsLeast {v : Int | ∃ S D ws,
        ILPFeasible [(⟨5, 10, 0⟩ : DemandRecord)] S D ws ∧ ILPObjective ws = v}
      (sweepMin [(⟨5, 10, 0⟩ : DemandRecord)]) :=
  ⟨by decide, optimizer_matches_brute_force_minimum _ (by decide)⟩

/- ### Claim C2: the landscape entry equals the waste evaluator's sum -/

/-- C2: for every feasible configuration `(S, D)` and every dataset, the
landscape analyzer's total-waste entry equals the sum over the dataset of the
waste evaluator's per-day `wasted_beds + wasted_potential`. -/
theorem landscape_matches_waste_evaluator (S D : Int) (data : List DemandRecord)
    (_hfeas : 2 * D + S = TOTAL_BEDS) :
    calculate_optimization_landscape_entry S D data
      = (data.map fun r =>
          (OptimizedModel.evaluate_day S D r).wasted_beds
            + (OptimizedModel.evaluate_day S D r).wasted_potential).sum := by
  induction data with
  | nil => simp [calculate_optimization_landscape_entry]
  | cons r l ih =>
    rw [landscape_entry_cons, List.map_cons, List.sum_cons, ih]
    simp only [OptimizedModel.evaluate_day, DOUBLE_ROOM_CAPACITY]
    ring_nf

/-- Witness for C2 at the configuration `(10, 8)` and a two-day dataset. -/
theorem landscape_matches_waste_evaluator_witness :
    2 * (8 : Int) + 10 = TOTAL_BEDS ∧
    calculate_optimization_landscape_entry 10 8
        [(⟨5, 10, 0⟩ : DemandRecord), ⟨12, 20, 1⟩]
      = ([(⟨5, 10, 0⟩ : DemandRecord), ⟨12, 20, 1⟩].map fun r =>
          (OptimizedModel.evaluate_day 10 8 r).wasted_beds
            + (OptimizedModel.evaluate_day 10 8 r).wasted_potential).sum :=
  ⟨by decide, landscape_matches_waste_evaluator 10 8 _ (by decide)⟩

/- ### Claim C6: bed conservation in optimizer results -/

/-- `total_free_beds = TOTAL_BEDS - (2 * double_rooms + single_rooms)` as
computed by `WardOptimizer._extract_results` (src/core/optimizer.py,
line 182). -/
def extract_total_free_beds (double_rooms single_rooms : Int) : Int :=
  TOTAL_BEDS - (2 * double_rooms + single_rooms)

/-- C6: every assignment satisfying the optimizer's constraints — in
particular the solution of a successful run — has
`single_rooms + 2*double_rooms = TOTAL_BEDS` exactly, so the derived
`total_free_beds` in the extracted results is `0`. -/
theorem optimizer_result_bed_conservation (data : List DemandRecord)
    (S D : Int) (ws : List (Int × Int)) (h : ILPFeasible data S D ws) :
    S + 2 * D = TOTAL_BEDS ∧ extract_total_free_beds D S = 0 := by
  obtain ⟨-, -, -, -, hline, -, -⟩ := h
  simp only [DOUBLE_ROOM_CAPACITY] at hline
  unfold extract_total_free_beds
  omega

/-- Witness for C6: a concrete feasible assignment at `(S, D) = (10, 8)`. -/
theorem optimizer_result_bed_conservation_witness :
    ILPFeasible [(⟨5, 10, 0⟩ : DemandRecord)] 10 8 [(0, 0)] ∧
    ((10 : Int) + 2 * 8 = TOTAL_BEDS ∧ extract_total_free_beds 8 10 = 0) :=
  ⟨by decide,
    optimizer_result_bed_conservation [(⟨5, 10, 0⟩ : DemandRecord)] 10 8 [(0, 0)]
      (by decide)⟩

/- ### Claim C3: the waste evaluator's formulas and non-negativity -/

/-- C3: for every configuration `(single_rooms, double_rooms)` and every demand
record, `OptimizedModel.evaluate_day` returns
`wasted_beds = max(0, isolation_patients - single_rooms)` and
`wasted_potential = max(0, pairable_patients - 2 * double_rooms)`, and both
returned quantities are non-negative. -/
theorem evaluate_day_waste_formula (single_rooms double_rooms : Int) (row : DemandRecord) :
    (OptimizedModel.evaluate_day single_rooms double_rooms row).wasted_beds
        = max 0 (row.isolation_patients - single_rooms) ∧
    (OptimizedModel.evaluate_day single_rooms double_rooms row).wasted_potential
        = max 0 (row.pairable_patients - 2 * double_rooms) ∧
    0 ≤ (OptimizedModel.evaluate_day single_rooms double_rooms row).wasted_beds ∧
    0 ≤ (OptimizedModel.evaluate_day single_rooms double_rooms row).wasted_potential := by
  refine ⟨rfl, ?_, le_max_left _ _, le_max_left _ _⟩
  simp [OptimizedModel.evaluate_day, DOUBLE_ROOM_CAPACITY, mul_comm]

/- ### Claim C8: monotonicity along the feasible line -/

/-- C8: along the feasible line `2*D + S = TOTAL_BEDS`, moving to more single
rooms (`S1 ≤ S2`) makes `wasted_beds` non-increasing and `wasted_potential`
non-decreasing, for every demand record. -/
theorem waste_monotone_along_feasible_line (row : DemandRecord)
    (S1 D1 S2 D2 : Int)
    (h1 : 2 * D1 + S1 = TOTAL_BEDS) (h2 : 2 * D2 + S2 = TOTAL_BEDS)
    (hS : S1 ≤ S2) :
    (OptimizedModel.evaluate_day S2 D2 row).wasted_beds
        ≤ (OptimizedModel.evaluate_day S1 D1 row).wasted_beds ∧
    (OptimizedModel.evaluate_day S1 D1 row).wasted_potential
        ≤ (OptimizedModel.evaluate_day S2 D2 row).wasted_potential := by
  constructor
  · exact max_le_max le_rfl (by omega)
  · simp only [OptimizedModel.evaluate_day, DOUBLE_ROOM_CAPACITY]
    exact max_le_max le_rfl (by omega)

/-- Witness for C8 at the concrete configurations `(0, 13)` and `(10, 8)` and
the spec's concrete record `{isolation=5, pairable=10, closed=0}`. -/
theorem waste_monotone_along_feasible_line_witness :
    2 * (13 : Int) + 0 = TOTAL_BEDS ∧ 2 * (8 : Int) + 10 = TOTAL_BEDS ∧
    (0 : Int) ≤ 10 ∧
    ((OptimizedModel.evaluate_day 10 8 ⟨5, 10, 0⟩).wasted_beds
        ≤ (OptimizedModel.evaluate_day 0 13 ⟨5, 10, 0⟩).wasted_beds ∧
    (OptimizedModel.evaluate_day 0 13 ⟨5, 10, 0⟩).wasted_potential
        ≤ (OptimizedModel.evaluate_day 10 8 ⟨5, 10, 0⟩).wasted_potential) :=
  ⟨by decide, by decide, by decide,
    waste_monotone_along_feasible_line ⟨5, 10, 0⟩ 0 13 10 8
      (by decide) (by decide) (by decide)⟩

/- ### Claim C9: constructor validation of the bed invariant -/

/-- C9: `BaseModel.__init__` raises exactly when
`single_rooms + 2*double_rooms ≠ TOTAL_BEDS`, and on success the stored room
counts are the supplied arguments, never a corrected pair. -/
theorem base_model_init_validation (single_rooms double_rooms : Int) :
    ((∃ e, BaseModel.init single_rooms double_rooms = Except.error e) ↔
        single_rooms + 2 * double_rooms ≠ TOTAL_BEDS) ∧
    (∀ c, BaseModel.init single_rooms double_rooms = Except.ok c →
        c.single_rooms = single_rooms ∧ c.double_rooms = double_rooms) := by
  unfold BaseModel.init
  by_cases h : single_rooms + 2 * double_rooms ≠ TOTAL_BEDS
  · simp [h]
  · simp only [h, if_neg, ite_false, not_false_iff]
    constructor
    · simp [h]
    · intro c hc
      cases hc
      exact ⟨rfl, rfl⟩

/-- Witness for C9: constructing with `(0, 13)` succeeds and stores exactly
`(0, 13)`. -/
theorem base_model_init_validation_witness :
    BaseModel.init 0 13 = Except.ok ⟨0, 13⟩ ∧
    ((⟨0, 13⟩ : Configuration).single_rooms = 0 ∧
     (⟨0, 13⟩ : Configuration).double_rooms = 13) :=
  ⟨by rfl, (base_model_init_validation 0 13).2 ⟨0, 13⟩ (by rfl)⟩

/- ### Claim C10: the zero-argument default substitution -/

/-- C10: `OptimizedModel(single_rooms=0, double_rooms=13)` — although
`0 + 2*13 = TOTAL_BEDS` satisfies the bed invariant — substitutes
`DEFAULT_SINGLE_ROOMS` for the falsy `0` and then fails the bed-invariant
check with bed total `10 + 2*13 = 36`; for strictly positive arguments the
constructed configuration carries exactly the supplied counts. -/
theorem optimized_model_zero_argument_default :
    OptimizedModel.init (some 0) (some 13)
        = Except.error (ModelError.invalid_configuration 36) ∧
    (0 : Int) + 2 * 13 = TOTAL_BEDS ∧
    (∀ s d : Int, 0 < s → 0 < d →
      ∀ c, OptimizedModel.init (some s) (some d) = Except.ok c →
        c.single_rooms = s ∧ c.double_rooms = d) := by
  refine ⟨by rfl, by decide, ?_⟩
  intro s d hs hd c hc
  have hs0 : s ≠ 0 := by omega
  have hd0 : d ≠ 0 := by omega
  rw [OptimizedModel.init, pyOrDefault, pyOrDefault] at hc
  simp only [hs0, hd0, if_false, ite_false] at hc
  exact (base_model_init_validation s d).2 c hc

/-- Witness for C10 at the strictly positive arguments `(10, 8)`. -/
theorem optimized_model_zero_argument_default_witness :
    (0 : Int) < 10 ∧ (0 : Int) < 8 ∧
    OptimizedModel.init (some 10) (some 8) = Except.ok ⟨10, 8⟩ ∧
    ((⟨10, 8⟩ : Configuration).single_rooms = 10 ∧
     (⟨10, 8⟩ : Configuration).double_rooms = 8) :=
  ⟨by decide, by decide, by rfl,
    optimized_model_zero_argument_default.2.2 10 8 (by decide) (by decide)
      ⟨10, 8⟩ (by rfl)⟩

/- ### Capacity analyzer (src/analysis/capacity_analyzer.py) -/

/-- The per-day room-usage report returned by
`CapacityAnalyzer._calculate_room_usage`. -/
structure RoomUsage where
  rooms_used : Int
  beds_used : Int
  singles_in_single : Int
  singles_in_double : Int
  doubles_in_double : Int
  doubles_in_single : Int
  overflow_patients : Int
deriving DecidableEq

namespace CapacityAnalyzer

/-- `CapacityAnalyzer._calculate_room_usage` (src/analysis/capacity_analyzer.py,
lines 142-196), the greedy placement: single patients into single rooms
(`min`), overflow singles one per double room (uncapped `doubles_for_singles =
remaining_singles`), pairable patients two per remaining double room, leftover
pairable patients into unused single rooms, the rest reported as
`overflow_patients`.  `//` and `%` are Python floor division and modulo
(`Int.fdiv` / `Int.fmod`). -/
def calculate_room_usage (single_patients double_patients single_rooms double_rooms : Int) :
    RoomUsage :=
  let singles_in_single := min single_patients single_rooms
  let remaining_singles := max 0 (single_patients - single_rooms)
  let doubles_for_singles := remaining_singles
  let available_doubles := max 0 (double_rooms - doubles_for_singles)
  let double_capacity := available_doubles * DOUBLE_ROOM_CAPACITY
  let doubles_accommodated := min double_patients double_capacity
  let overflow_before := max 0 (double_patients - double_capacity)
  let singles_for_doubles :=
    if 0 < overflow_before ∧ singles_in_single < single_rooms then
      min overflow_before (single_rooms - singles_in_single)
    else 0
  let overflow_doubles := overflow_before - singles_for_doubles
  { rooms_used := singles_in_single + doubles_for_singles
      + doubles_accommodated.fdiv DOUBLE_ROOM_CAPACITY
      + (if 0 < doubles_accommodated.fmod DOUBLE_ROOM_CAPACITY then 1 else 0)
      + singles_for_doubles
    beds_used := singles_in_single + remaining_singles + doubles_accommodated
      + singles_for_doubles
    singles_in_single := singles_in_single
    singles_in_double := remaining_singles
    doubles_in_double := doubles_accommodated
    doubles_in_single := singles_for_doubles
    overflow_patients := overflow_doubles }

/-- The turn-away flag computed per day by `CapacityAnalyzer.analyze_capacity`
(src/analysis/capacity_analyzer.py, line 84):
`would_turn_away = room_usage['overflow_patients'] > 0`. -/
def would_turn_away (usage : RoomUsage) : Bool :=
  decide (0 < usage.overflow_patients)

end CapacityAnalyzer

/- ### Claim C4: what the capacity analyzer's overflow counts -/

/-- C4 counterexample: with configuration `(single_rooms=10, double_rooms=8)`
and a day of 25 isolation patients and no pairable patients, `25 > 10 + 8 = 18`
patients cannot all be placed — the claim requires a positive overflow — yet
`_calculate_room_usage` reports `overflow_patients = 0` and
`would_turn_away = false`: isolation overflow is never capped at the number of
double rooms. -/
theorem room_usage_overflow_uncounted_isolation :
    (10 : Int) + 8 < 25 ∧
    (CapacityAnalyzer.calculate_room_usage 25 0 10 8).overflow_patients = 0 ∧
    CapacityAnalyzer.would_turn_away
      (CapacityAnalyzer.calculate_room_usage 25 0 10 8) = false := by
  refine ⟨by decide, by decide, by decide⟩

/-- C4 amended: the overflow reported by `_calculate_room_usage` counts only
pairable patients left unplaced — `max 0` of the pairable overflow beyond the
double rooms not consumed by isolation overflow, minus the single rooms left
unused — so a day with no pairable patients never reports overflow, however
many isolation patients exceed `single_rooms + double_rooms`; `would_turn_away`
is true exactly when that (pairable-only) overflow is positive. -/
theorem room_usage_overflow_formula
    (single_patients double_patients single_rooms double_rooms : Int) :
    (CapacityAnalyzer.calculate_room_usage single_patients double_patients
        single_rooms double_rooms).overflow_patients
      = max 0
          (max 0 (double_patients
              - (max 0 (double_rooms - max 0 (single_patients - single_rooms)))
                  * DOUBLE_ROOM_CAPACITY)
            - max 0 (single_rooms - single_patients)) ∧
    (double_patients ≤ 0 →
      (CapacityAnalyzer.calculate_room_usage single_patients double_patients
          single_rooms double_rooms).overflow_patients = 0) ∧
    (CapacityAnalyzer.would_turn_away
        (CapacityAnalyzer.calculate_room_usage single_patients double_patients
          single_rooms double_rooms) = true ↔
      0 < (CapacityAnalyzer.calculate_room_usage single_patients double_patients
          single_rooms double_rooms).overflow_patients) := by
  refine ⟨?_, ?_, ?_⟩
  · simp only [CapacityAnalyzer.calculate_room_usage, DOUBLE_ROOM_CAPACITY]
    split_ifs with h
    · obtain ⟨h1, h2⟩ := h
      omega
    · rw [not_and_or] at h
      omega
  · intro hdp
    simp only [CapacityAnalyzer.calculate_room_usage, DOUBLE_ROOM_CAPACITY]
    split_ifs with h
    · obtain ⟨h1, h2⟩ := h
      have : (0 : Int) ≤ max 0 (double_rooms - max 0 (single_patients - single_rooms)) * 2 := by
        have := le_max_left (0 : Int) (double_rooms - max 0 (single_patients - single_rooms))
        omega
      omega
    · have : (0 : Int) ≤ max 0 (double_rooms - max 0 (single_patients - single_rooms)) * 2 := by
        have := le_max_left (0 : Int) (double_rooms - max 0 (single_patients - single_rooms))
        omega
      omega
  · simp [CapacityAnalyzer.would_turn_away]

/-- Witness for the amended C4 at the counterexample's inputs
`(single_patients=25, double_patients=0, single_rooms=10, double_rooms=8)`. -/
theorem room_usage_overflow_formula_witness :
    (0 : Int) ≤ 0 ∧
    (CapacityAnalyzer.calculate_room_usage 25 0 10 8).overflow_patients = 0 :=
  ⟨by decide, (room_usage_overflow_formula 25 0 10 8).2.1 (by decide)⟩

/- ### Efficiency calculators (C5, C7) -/

/-- The efficiency derived by `WardOptimizer._extract_results`
(src/core/optimizer.py, line 183):
`(TOTAL_BEDS - total_free_beds - wasted_beds - wasted_potential) / TOTAL_BEDS`,
a Python float division modelled in `ℚ`. -/
def extract_efficiency (double_rooms single_rooms wasted_beds wasted_potential : Int) : ℚ :=
  ((TOTAL_BEDS : ℚ) - (extract_total_free_beds double_rooms single_rooms : ℚ)
      - (wasted_beds : ℚ) - (wasted_potential : ℚ)) / (TOTAL_BEDS : ℚ)

namespace EfficiencyCalculator

/-- `EfficiencyCalculator.calculate_daily_efficiency`
(src/analysis/efficiency_calculator.py, lines 26-51): `0.0` when
`available_beds <= 0`, otherwise
`max(0.0, min(100.0, (available - wasted_beds - wasted_potential) / available * 100))`. -/
def calculate_daily_efficiency (available_beds wasted_beds wasted_potential : Int) : ℚ :=
  if available_beds ≤ 0 then 0
  else
    max 0 (min 100
      (((available_beds : ℚ) - wasted_beds - wasted_potential)
        / (available_beds : ℚ) * 100))

end EfficiencyCalculator

/- ### Claim C5: the optimizer's reported efficiency range -/

/-- C5 counterexample: on the one-day dataset `{isolation=60, pairable=0}` the
assignment `(S, D) = (26, 0)` with daily waste `(34, 0)` is ILP-optimal, and
the efficiency `_extract_results` computes for it,
`(26 - 0 - 34 - 0) / 26`, is negative — outside `[0, 100]`. -/
theorem optimizer_efficiency_negative_example :
    ILPOptimal [(⟨60, 0, 0⟩ : DemandRecord)] 26 0 [(34, 0)] ∧
    extract_efficiency 0 26 34 0 < 0 := by
  constructor
  · refine ⟨by decide, ?_⟩
    rintro S' D' ws' ⟨hS0, hS1, hD0, hD1, hline, hlen, hdaily⟩
    have hobj := ilp_objective_ge_landscape S' D'
      [(⟨60, 0, 0⟩ : DemandRecord)] ws' hlen hdaily
    have hS26 : S' ≤ 26 := by simpa [MAX_SINGLE_ROOMS] using hS1
    have hentry : calculate_optimization_landscape_entry S' D'
        [(⟨60, 0, 0⟩ : DemandRecord)]
        = max 0 (60 - S') + max 0 (0 - 2 * D') := by
      rw [landscape_entry_cons]
      simp [calculate_optimization_landscape_entry]
    rw [hentry] at hobj
    have h1 : (60 : Int) - S' ≤ max 0 (60 - S') := le_max_right _ _
    have h2 : (0 : Int) ≤ max 0 (0 - 2 * D') := le_max_left _ _
    have hobj34 : (34 : Int) ≤ ILPObjective ws' := by omega
    simpa [ILPObjective] using hobj34
  · norm_num [extract_efficiency, extract_total_free_beds, TOTAL_BEDS]

/-- C5 amended: for every feasible assignment (hence for every returned
solution) the efficiency `_extract_results` computes is at most `1` — the
value is a fraction of `TOTAL_BEDS`, not a percentage — and it is
non-negative exactly when the total waste does not exceed `TOTAL_BEDS`; it is
not clamped and can be negative. -/
theorem optimizer_efficiency_at_most_one (data : List DemandRecord)
    (S D : Int) (ws : List (Int × Int)) (h : ILPFeasible data S D ws) :
    extract_efficiency D S ((ws.map Prod.fst).sum) ((ws.map Prod.snd).sum) ≤ 1 ∧
    (0 ≤ extract_efficiency D S ((ws.map Prod.fst).sum) ((ws.map Prod.snd).sum) ↔
      (ws.map Prod.fst).sum + (ws.map Prod.snd).sum ≤ TOTAL_BEDS) := by
  have hfree : extract_total_free_beds D S = 0 :=
    (optimizer_result_bed_conservation data S D ws h).2
  obtain ⟨-, -, -, -, -, hlen, hdaily⟩ := h
  have htot : (0 : Int) ≤ (ws.map Prod.fst).sum + (ws.map Prod.snd).sum := by
    have h1 := landscape_entry_nonneg S D data
    have h2 := ilp_objective_ge_landscape S D data ws hlen hdaily
    simp only [ILPObjective] at h2
    omega
  generalize hA : (ws.map Prod.fst).sum = A at htot ⊢
  generalize hB : (ws.map Prod.snd).sum = B at htot ⊢
  unfold extract_efficiency
  rw [hfree]
  have hq : (0 : ℚ) ≤ (A : ℚ) + (B : ℚ) := by exact_mod_cast htot
  have hpos : (0 : ℚ) < (TOTAL_BEDS : ℚ) := by norm_num [TOTAL_BEDS]
  have h26 : ((TOTAL_BEDS : Int) : ℚ) = 26 := by norm_num [TOTAL_BEDS]
  constructor
  · rw [div_le_one hpos]
    simp only [Int.cast_zero]
    linarith
  · rw [le_div_iff₀ hpos]
    simp only [Int.cast_zero, zero_mul, sub_zero]
    constructor
    · intro hle
      have hab : (A : ℚ) + B ≤ 26 := by rw [h26] at hle; linarith
      have hab' : A + B ≤ (26 : Int) := by exact_mod_cast hab
      simpa [TOTAL_BEDS] using hab'
    · intro hle
      have hab : A + B ≤ (26 : Int) := by simpa [TOTAL_BEDS] using hle
      have hab' : (A : ℚ) + B ≤ 26 := by exact_mod_cast hab
      rw [h26]
      linarith

/-- Witness for the amended C5 at a concrete feasible assignment. -/
theorem optimizer_efficiency_at_most_one_witness :
    ILPFeasible [(⟨5, 10, 0⟩ : DemandRecord)] 10 8 [(0, 0)] ∧
    (extract_efficiency 8 10 (([((0 : Int), (0 : Int))].map Prod.fst).sum)
        (([((0 : Int), (0 : Int))].map Prod.snd).sum) ≤ 1 ∧
      (0 ≤ extract_efficiency 8 10 (([((0 : Int), (0 : Int))].map Prod.fst).sum)
          (([((0 : Int), (0 : Int))].map Prod.snd).sum) ↔
        ([((0 : Int), (0 : Int))].map Prod.fst).sum
          + ([((0 : Int), (0 : Int))].map Prod.snd).sum ≤ TOTAL_BEDS)) :=
  ⟨by decide,
    optimizer_efficiency_at_most_one [(⟨5, 10, 0⟩ : DemandRecord)] 10 8
      [(0, 0)] (by decide)⟩

/- ### Claim C7: per-day efficiency clamping across code paths -/

/-- C7 counterexample: under the valid configuration `(0, 13)` on the day
`{isolation=30, pairable=0, closed=0}` the waste evaluator reports 30 wasted
beds; `BaseModel.evaluate`'s per-day `Efficiency` is `(26 - 30)/26 * 100 < 0`,
while the claimed clamped formula — which
`EfficiencyCalculator.calculate_daily_efficiency` does implement — yields `0`:
the `BaseModel.evaluate` code path does not clamp to `[0, 100]`. -/
theorem base_model_efficiency_unclamped_example :
    (OptimizedModel.evaluate_day 0 13 ⟨30, 0, 0⟩).wasted_beds = 30 ∧
    BaseModel.daily_efficiency (TOTAL_BEDS - 0) 30 0 < 0 ∧
    EfficiencyCalculator.calculate_daily_efficiency (TOTAL_BEDS - 0) 30 0 = 0 := by
  refine ⟨by decide, ?_, ?_⟩
  · norm_num [BaseModel.daily_efficiency, TOTAL_BEDS]
  · norm_num [EfficiencyCalculator.calculate_daily_efficiency, TOTAL_BEDS]

/-- C7 amended: `EfficiencyCalculator.calculate_daily_efficiency` equals the
per-day `Efficiency` of `BaseModel.evaluate` clamped to `[0, 100]`; the
clamp is applied only on the `EfficiencyCalculator` code path. -/
theorem daily_efficiency_clamp_relation
    (available_beds wasted_beds wasted_potential : Int) :
    EfficiencyCalculator.calculate_daily_efficiency
        available_beds wasted_beds wasted_potential
      = max 0 (min 100
          (BaseModel.daily_efficiency available_beds wasted_beds wasted_potential)) := by
  unfold EfficiencyCalculator.calculate_daily_efficiency BaseModel.daily_efficiency
  rcases le_or_lt available_beds 0 with h | h
  · rw [if_pos h, if_neg (not_lt.mpr h)]
    norm_num
  · rw [if_neg (not_le.mpr h), if_pos h]

end PsychWard
